import Mathlib

/-!
Shallow embedding of the Movie-Mania-Agent repository (src/agent.py,
src/main.py, src/tools.py) and proofs about its conversation loop,
HTTP chat endpoint and TMDB capability functions.

The conversation loop is the LangGraph graph built in src/agent.py:
`llm_node` prepends the fixed system prompt and calls the model, the
`should_continue` edge routes to the prebuilt `ToolNode` while the last
assistant message carries tool calls, and the graph re-enters the llm
node after tool execution.  LangGraph's recursion limit (which raises
`GraphRecursionError` when exhausted) is modelled as explicit fuel, and
`ToolNode`'s default error handling (a raised tool exception becomes a
`ToolMessage` whose content is an error string) is modelled by
`toolNodeExec`.  The model client and the capability executors are
parameters: the model is a function from the supplied message list to
either a failure (a raised exception) or an assistant reply with a list
of tool calls.
-/

namespace MovieMania

/-- One pending capability invocation request carried by an assistant
message: langchain tool call with an id, a tool name and serialized
arguments. -/
structure ToolCall where
  id : String
  name : String
  args : String
deriving DecidableEq, Repr

/-- Content of a `ToolMessage`: either the tool's serialized result or
the error string produced by `ToolNode`'s exception handling. -/
inductive ToolPayload where
  | ok (content : String)
  | error (content : String)
deriving DecidableEq, Repr

/-- Messages of the conversation state (src/agent.py `ChatState`):
`SystemMessage`, `HumanMessage`, `AIMessage` (with its tool calls) and
`ToolMessage` (keyed by the tool call id it answers). -/
inductive Msg where
  | system (content : String)
  | user (content : String)
  | assistant (content : String) (toolCalls : List ToolCall)
  | toolResult (toolCallId : String) (payload : ToolPayload)
deriving DecidableEq, Repr

/-- Text of the fixed system prompt of src/agent.py lines 16-38. -/
def systemPromptContent : String :=
  "You are a Movie Assistant AI with access to TMDB movie database tools.\n\nAvailable Tools:\n- search_movies: Find movies by title\n- get_movie_details: Get full movie info (cast, crew, ratings)  \n- discover_movies: Find movies by genre/popularity\n- get_movie_lists: Get popular/top-rated/trending lists\n- get_movie_recommendations: Get similar movies\n- get_trending_movies: Get current trending films\n- get_watch_providers: Find where to watch/stream movies\n\nGenres: Action(28), Comedy(35), Drama(18), Horror(27), Romance(10749), Sci-Fi(878), etc.\n\nGuidelines:\n- Use multiple tools for complete answers if needed\n- Be conversational and engaging\n- Provide cast, ratings, and plot when relevant\n- Offer recommendations when appropriate\n- Format responses clearly with key details\n- For \"where to watch\" queries: search_movies → get_watch_providers\n- Don\x27t answer if not related to your task, then explain why you can\x27t answer this.\n\nExamples: 1. \"popular/ trending movies?\" → get_trending_movies. 2. For \"Where can I watch Inception?\" → search_movies → get_watch_providers"

/-- The fixed `system_prompt` message of src/agent.py. -/
def systemPrompt : Msg := Msg.system systemPromptContent

/-- Whether a message is a `SystemMessage`. -/
def Msg.isSystem : Msg → Bool
  | .system _ => true
  | _ => false

/-- The tool call id answered by a message, when it is a `ToolMessage`. -/
def Msg.resultId : Msg → Option String
  | .toolResult i _ => some i
  | _ => none

/-- The `.content` attribute of a message. -/
def Msg.contentOf : Msg → String
  | .system c => c
  | .user c => c
  | .assistant c _ => c
  | .toolResult _ p => match p with | .ok c => c | .error c => c

/-- Execution of the tool calls of one assistant message by the prebuilt
`ToolNode` (src/agent.py lines 81-82): one `ToolMessage` per tool call,
in request order, each carrying the matching tool call id. -/
def execToolCalls (exec : ToolCall → ToolPayload) (tcs : List ToolCall) : List Msg :=
  tcs.map (fun tc => Msg.toolResult tc.id (exec tc))

/-- `ToolNode`'s default error handling: a tool invocation that raises is
caught and turned into an error-content payload; a normal result is
passed through. -/
def toolNodeExec (invoke : ToolCall → Except String String) (tc : ToolCall) : ToolPayload :=
  match invoke tc with
  | Except.ok v => ToolPayload.ok v
  | Except.error e => ToolPayload.error ("Error: " ++ e ++ "\n Please fix your mistakes.")

/-- Outcome of one `graph.invoke` call: normal completion with the final
history, LangGraph's `GraphRecursionError` when the recursion limit is
exhausted, or a model-client exception propagating out. -/
inductive LoopResult where
  | done (history : List Msg)
  | loopBoundExceeded
  | modelFailure (e : String)
deriving DecidableEq, Repr

/-- Result of a run of the conversation loop together with the list of
message sequences supplied to the model client, one per model call, in
call order. -/
structure LoopOutcome where
  result : LoopResult
  modelInputs : List (List Msg)
deriving DecidableEq, Repr

/-- The conversation loop of src/agent.py lines 61-102: `llm_node` calls
the model on `[system_prompt] + state.messages` and appends the reply;
`should_continue` ends the run when the reply has no tool calls, else the
`ToolNode` appends one `ToolMessage` per tool call and the loop re-enters
`llm_node`.  `fuel` is the configured round-trip bound (LangGraph's
recursion limit); exhausting it yields `loopBoundExceeded` in place of
`GraphRecursionError`. -/
def runLoop (model : List Msg → Except String (String × List ToolCall))
    (exec : ToolCall → ToolPayload) : Nat → List Msg → LoopOutcome
  | 0, _ => ⟨LoopResult.loopBoundExceeded, []⟩
  | fuel+1, h =>
    match model (systemPrompt :: h) with
    | Except.error e => ⟨LoopResult.modelFailure e, [systemPrompt :: h]⟩
    | Except.ok (c, tcs) =>
      if tcs.isEmpty then
        ⟨LoopResult.done (h ++ [Msg.assistant c tcs]), [systemPrompt :: h]⟩
      else
        let rest := runLoop model exec fuel (h ++ [Msg.assistant c tcs] ++ execToolCalls exec tcs)
        ⟨rest.result, (systemPrompt :: h) :: rest.modelInputs⟩

/-- Per-session storage of src/main.py: `chat_sessions[session_id]` holds
the caller-visible chat transcript (`'messages'`, role/content pairs) and
the agent state (`'state'`, the `messages` list handed to `graph.invoke`).
Timestamps and ids are not modelled. -/
structure ApiSession where
  messages : List (String × String)
  state : List Msg
deriving DecidableEq, Repr

/-- The `/chat` endpoint `chat_with_agent` of src/main.py lines 237-287,
for an existing session.  It appends the user message to the session
transcript, builds the agent state via `session['state'].copy()` — a
shallow copy, so the subsequent `agent_state['messages'].append(...)`
also mutates the stored state's message list — and runs the agent.  A
raised agent error becomes the 500 response `Agent processing failed: e`
from `run_agent_async` (src/main.py lines 156-164); on success the last
message's content is returned, the stored state is replaced by the agent
result, and an assistant entry is appended to the transcript. -/
def chat_with_agent (agent : List Msg → Except String (List Msg))
    (sess : ApiSession) (userText : String) : ApiSession × Except String String :=
  let msgs1 := sess.messages ++ [("user", userText)]
  let agentState := sess.state ++ [Msg.user userText]
  match agent agentState with
  | Except.error e =>
      (⟨msgs1, agentState⟩, Except.error ("Agent processing failed: " ++ e))
  | Except.ok result =>
      match result.getLast? with
      | none =>
          (⟨msgs1, agentState⟩, Except.error "Internal server error: list index out of range")
      | some last =>
          (⟨msgs1 ++ [("assistant", last.contentOf)], result⟩, Except.ok last.contentOf)

/-! ## TMDB capability functions (src/tools.py)

Each capability performs one `requests.get(url, params).json()` against
TMDB and then filters the decoded JSON.  The HTTP layer is modelled as a
`source : ApiRequest → Except String R` parameter: `Except.error`
stands for a raised exception (unreachable host, malformed payload),
`Except.ok` for a decoded JSON body — note that a non-2xx TMDB reply
still decodes to a body, one without a `results` key.  Fields the code
passes through without inspecting are given an abstract type `α`. -/

/-- A TMDB HTTP request: the URL and the query-parameter mapping (values
rendered as strings, as `requests` serializes them). -/
structure ApiRequest where
  url : String
  params : List (String × String)
deriving DecidableEq, Repr

/-- One raw movie object of a TMDB list response, restricted to the
fields the code reads. -/
structure RawMovie (α : Type) where
  id : Option α
  title : Option α
  release_date : Option α
  vote_average : Option α
  overview : Option String
deriving DecidableEq, Repr

/-- One filtered movie as produced by the list-returning capabilities. -/
structure FilteredMovie (α : Type) where
  id : Option α
  title : Option α
  release_date : Option α
  vote_average : Option α
  overview : String
deriving DecidableEq, Repr

/-- A decoded TMDB list-endpoint body: the `results` and `total_results`
keys, each possibly absent. -/
structure ListResponse (α : Type) where
  results : Option (List (RawMovie α))
  total_results : Option Int
deriving DecidableEq, Repr

/-- Return value of a list-returning capability: the filtered dictionary
when the body has a `results` key, otherwise the raw body passed
through. -/
inductive ListOutput (α : Type) where
  | filtered (results : List (FilteredMovie α)) (total_results : Int)
  | raw (resp : ListResponse α)
deriving DecidableEq, Repr

/-- Per-movie filtering shared by the list-returning capabilities:
essential fields are copied and the overview (defaulting to `""`) is
truncated to `limit` characters with `"..."` appended when longer. -/
def filterMovie {α : Type} (limit : Nat) (m : RawMovie α) : FilteredMovie α :=
  { id := m.id
    title := m.title
    release_date := m.release_date
    vote_average := m.vote_average
    overview :=
      if (m.overview.getD "").length > limit then
        ((m.overview.getD "").take limit) ++ "..."
      else
        m.overview.getD "" }

/-- Response filtering shared by the list-returning capabilities
(src/tools.py, e.g. lines 137-155): when the body has a `results` key,
keep the first 5 movies, filter each, and report
`min(total_results, 5)` (with `total_results` defaulting to 0);
otherwise return the body unchanged. -/
def filterListResponse {α : Type} (limit : Nat) (resp : ListResponse α) : ListOutput α :=
  match resp.results with
  | some movies =>
      ListOutput.filtered ((movies.take 5).map (filterMovie limit))
        (min (resp.total_results.getD 0) 5)
  | none => ListOutput.raw resp

/-- Request built by `search_movies` (src/tools.py lines 128-134). -/
def searchRequest (apiKey query : String) (page : Int) : ApiRequest :=
  ⟨"https://api.themoviedb.org/3/search/movie",
   [("api_key", apiKey), ("query", query), ("page", toString page), ("language", "en-US")]⟩

/-- `search_movies` of src/tools.py lines 111-155: one GET against the
search endpoint, then `filterListResponse` with a 200-character overview
limit. -/
def search_movies {α : Type} (source : ApiRequest → Except String (ListResponse α))
    (apiKey query : String) (page : Int := 1) : Except String (ListOutput α) :=
  (source (searchRequest apiKey query page)).map (filterListResponse 200)

/-- Request built by `discover_movies` (src/tools.py lines 175-185);
`with_genres` is added only when `genre_id` is truthy (not `None` and
not 0). -/
def discoverRequest (apiKey : String) (genre_id : Option Int) (sort_by : String)
    (page : Int) : ApiRequest :=
  let base := [("api_key", apiKey), ("language", "en-US"), ("sort_by", sort_by),
               ("page", toString page), ("include_adult", "False")]
  ⟨"https://api.themoviedb.org/3/discover/movie",
   match genre_id with
   | some g => if g = 0 then base else base ++ [("with_genres", toString g)]
   | none => base⟩

/-- `discover_movies` of src/tools.py lines 158-207 (150-character
overview limit). -/
def discover_movies {α : Type} (source : ApiRequest → Except String (ListResponse α))
    (apiKey : String) (genre_id : Option Int := none)
    (sort_by : String := "popularity.desc") (page : Int := 1) :
    Except String (ListOutput α) :=
  (source (discoverRequest apiKey genre_id sort_by page)).map (filterListResponse 150)

/-- Request built by `get_movie_lists` (src/tools.py lines 228-233). -/
def movieListsRequest (apiKey list_type : String) (page : Int) : ApiRequest :=
  ⟨"https://api.themoviedb.org/3/movie/" ++ list_type,
   [("api_key", apiKey), ("language", "en-US"), ("page", toString page)]⟩

/-- `get_movie_lists` of src/tools.py lines 210-254 (150-character
overview limit). -/
def get_movie_lists {α : Type} (source : ApiRequest → Except String (ListResponse α))
    (apiKey : String) (list_type : String := "popular") (page : Int := 1) :
    Except String (ListOutput α) :=
  (source (movieListsRequest apiKey list_type page)).map (filterListResponse 150)

/-- Request built by `get_trending_movies` (src/tools.py lines 274-278);
note it sends no `language` parameter. -/
def trendingRequest (apiKey time_window : String) (page : Int) : ApiRequest :=
  ⟨"https://api.themoviedb.org/3/trending/movie/" ++ time_window,
   [("api_key", apiKey), ("page", toString page)]⟩

/-- `get_trending_movies` of src/tools.py lines 257-299 (150-character
overview limit). -/
def get_trending_movies {α : Type} (source : ApiRequest → Except String (ListResponse α))
    (apiKey : String) (time_window : String := "day") (page : Int := 1) :
    Except String (ListOutput α) :=
  (source (trendingRequest apiKey time_window page)).map (filterListResponse 150)

/-- Request built by `get_movie_recommendations` (src/tools.py lines
318-323). -/
def recommendationsRequest (apiKey : String) (movie_id : Int) (page : Int) : ApiRequest :=
  ⟨"https://api.themoviedb.org/3/movie/" ++ toString movie_id ++ "/recommendations",
   [("api_key", apiKey), ("language", "en-US"), ("page", toString page)]⟩

/-- `get_movie_recommendations` of src/tools.py lines 302-344
(150-character overview limit). -/
def get_movie_recommendations {α : Type} (source : ApiRequest → Except String (ListResponse α))
    (apiKey : String) (movie_id : Int) (page : Int := 1) :
    Except String (ListOutput α) :=
  (source (recommendationsRequest apiKey movie_id page)).map (filterListResponse 150)

/-- A genre object of a movie-details body; the code reads its `name`. -/
structure GenreObj (α : Type) where
  name : α
deriving DecidableEq, Repr

/-- A cast entry of the credits; the code reads `name` and `character`. -/
structure CastMember (α : Type) where
  name : α
  character : α
deriving DecidableEq, Repr

/-- A crew entry of the credits; the code compares `job` with the string
`"Director"` and reads `name`. -/
structure CrewMember (α : Type) where
  name : α
  job : String
deriving DecidableEq, Repr

/-- The `credits` object of a movie-details body. -/
structure Credits (α : Type) where
  cast : Option (List (CastMember α))
  crew : Option (List (CrewMember α))
deriving DecidableEq, Repr

/-- A decoded movie-details body, restricted to the fields the code
reads. -/
structure DetailsResponse (α : Type) where
  id : Option α
  title : Option α
  overview : Option α
  release_date : Option α
  runtime : Option α
  vote_average : Option α
  vote_count : Option α
  budget : Option α
  revenue : Option α
  genres : Option (List (GenreObj α))
  credits : Option (Credits α)
deriving DecidableEq, Repr

/-- The filtered movie-details dictionary; `cast` and `director` are
present (outer `some`) exactly when the body had a `credits` key, and
`director` is `none` (inner) when no crew entry has job `"Director"`. -/
structure FilteredDetails (α : Type) where
  id : Option α
  title : Option α
  overview : Option α
  release_date : Option α
  runtime : Option α
  vote_average : Option α
  vote_count : Option α
  budget : Option α
  revenue : Option α
  genres : List α
  cast : Option (List (CastMember α))
  director : Option (Option α)
deriving DecidableEq, Repr

/-- Request built by `get_movie_details` (src/tools.py lines 66-73);
`append_to_response=credits` is added when `append_credits` holds. -/
def detailsRequest (apiKey : String) (movie_id : Int) (append_credits : Bool) : ApiRequest :=
  let base := [("api_key", apiKey), ("language", "en-US")]
  ⟨"https://api.themoviedb.org/3/movie/" ++ toString movie_id,
   if append_credits then base ++ [("append_to_response", "credits")] else base⟩

/-- `get_movie_details` of src/tools.py lines 49-108: one GET, then the
essential fields are copied, genres mapped to their names, the cast
limited to the first 10 entries, and the director taken as the first
crew member whose job is `"Director"`. -/
def get_movie_details {α : Type} (source : ApiRequest → Except String (DetailsResponse α))
    (apiKey : String) (movie_id : Int) (append_credits : Bool := true) :
    Except String (FilteredDetails α) :=
  (source (detailsRequest apiKey movie_id append_credits)).map (fun resp =>
    let base : FilteredDetails α :=
      { id := resp.id
        title := resp.title
        overview := resp.overview
        release_date := resp.release_date
        runtime := resp.runtime
        vote_average := resp.vote_average
        vote_count := resp.vote_count
        budget := resp.budget
        revenue := resp.revenue
        genres := (resp.genres.getD []).map (fun g => g.name)
        cast := none
        director := none }
    match resp.credits with
    | none => base
    | some cr =>
        let directors :=
          ((cr.crew.getD []).filter (fun p => p.job = "Director")).map (fun p => p.name)
        { base with
            cast := some (((cr.cast.getD []).take 10).map (fun p => ⟨p.name, p.character⟩))
            director := some directors.head? })

/-- One provider entry of a watch-providers body; the code reads its
`provider_name`. -/
structure ProviderRec where
  provider_name : String
deriving DecidableEq, Repr

/-- The per-region object of a watch-providers body. -/
structure ProviderEntry where
  link : Option String
  flatrate : Option (List ProviderRec)
  rent : Option (List ProviderRec)
  buy : Option (List ProviderRec)
deriving DecidableEq, Repr

/-- A decoded watch-providers body: the region-keyed `results` mapping,
possibly absent. -/
structure WPResponse where
  results : Option (List (String × ProviderEntry))
deriving DecidableEq, Repr

/-- A value of the dictionary returned by `get_watch_providers`. -/
inductive WPVal where
  | vint (n : Int)
  | vstr (s : String)
  | vlist (xs : List String)
deriving DecidableEq, Repr

/-- Request built by `get_watch_providers` (src/tools.py lines 364-368).
Its parameters are only `api_key` and `language`; the `region` argument
is not sent. -/
def wpRequest (apiKey : String) (movie_id : Int) : ApiRequest :=
  ⟨"https://api.themoviedb.org/3/movie/" ++ toString movie_id ++ "/watch/providers",
   [("api_key", apiKey), ("language", "en-US")]⟩

/-- `get_watch_providers` of src/tools.py lines 346-414: one GET, then
the entry for `region` is selected from the body's `results`; when the
body has a `results` key containing the region, the provider names of
`flatrate`, `rent` and `buy` are listed (each defaulting to empty), else
an all-empty dictionary with an explanatory `message` is returned.  The
returned dictionary is modelled as a key/value list in insertion
order. -/
def get_watch_providers (source : ApiRequest → Except String WPResponse)
    (apiKey : String) (movie_id : Int) (region : String := "US") :
    Except String (List (String × WPVal)) :=
  (source (wpRequest apiKey movie_id)).map (fun resp =>
    match resp.results.bind (fun rs => rs.lookup region) with
    | some pd =>
        [("movie_id", WPVal.vint movie_id),
         ("region", WPVal.vstr region),
         ("streaming", WPVal.vlist ((pd.flatrate.getD []).map (fun p => p.provider_name))),
         ("rent", WPVal.vlist ((pd.rent.getD []).map (fun p => p.provider_name))),
         ("buy", WPVal.vlist ((pd.buy.getD []).map (fun p => p.provider_name))),
         ("link", WPVal.vstr (pd.link.getD ""))]
    | none =>
        [("movie_id", WPVal.vint movie_id),
         ("region", WPVal.vstr region),
         ("streaming", WPVal.vlist []),
         ("rent", WPVal.vlist []),
         ("buy", WPVal.vlist []),
         ("message", WPVal.vstr ("No streaming information available for this movie in " ++ region)),
         ("link", WPVal.vstr "")])

/-- Constructor arguments of the `ChatGroq` model client configured in
src/agent.py lines 49-54. -/
structure ChatGroq where
  api_key : Option String
  model : String
  temperature : ℚ
  max_tokens : Nat
deriving DecidableEq, Repr

/-- `chat_model = os.getenv('GROQ_MODEL', 'llama-3.3-70b-versatile')`
(src/agent.py line 46). -/
def chat_model (envModel : Option String) : String :=
  envModel.getD "llama-3.3-70b-versatile"

/-- The `llm` client configuration of src/agent.py lines 49-54:
temperature 0.1 and max_tokens 2048, model taken from the environment
with the default above. -/
def llm (apiKey envModel : Option String) : ChatGroq :=
  ⟨apiKey, chat_model envModel, 1/10, 2048⟩

/-! ## Helper lemmas about the loop -/

theorem execToolCalls_length (exec : ToolCall → ToolPayload) (tcs : List ToolCall) :
    (execToolCalls exec tcs).length = tcs.length := by
  simp [execToolCalls]

theorem execToolCalls_not_system (exec : ToolCall → ToolPayload) (tcs : List ToolCall) :
    ∀ m ∈ execToolCalls exec tcs, m.isSystem = false := by
  intro m hm
  simp only [execToolCalls, List.mem_map] at hm
  obtain ⟨tc, -, rfl⟩ := hm
  rfl

theorem runLoop_inputs_nonempty (model : List Msg → Except String (String × List ToolCall))
    (exec : ToolCall → ToolPayload) (fuel : Nat) (h : List Msg) :
    1 ≤ (runLoop model exec (fuel + 1) h).modelInputs.length := by
  cases hmod : model (systemPrompt :: h) with
  | error e => simp [runLoop, hmod]
  | ok r =>
      obtain ⟨c, tcs⟩ := r
      by_cases hemp : tcs.isEmpty <;> simp [runLoop, hmod, hemp]

theorem runLoop_step (model : List Msg → Except String (String × List ToolCall))
    (exec : ToolCall → ToolPayload) (fuel : Nat) (h : List Msg) (c : String)
    (tcs : List ToolCall) (hmod : model (systemPrompt :: h) = Except.ok (c, tcs))
    (hemp : tcs.isEmpty = false) :
    runLoop model exec (fuel + 1) h =
      ⟨(runLoop model exec fuel (h ++ [Msg.assistant c tcs] ++ execToolCalls exec tcs)).result,
       (systemPrompt :: h) ::
         (runLoop model exec fuel
           (h ++ [Msg.assistant c tcs] ++ execToolCalls exec tcs)).modelInputs⟩ := by
  simp only [runLoop, hmod, hemp, Bool.false_eq_true, if_false]

theorem filterMap_some_id (l : List ToolCall) :
    List.filterMap (fun x => some x.id) l = l.map ToolCall.id := by
  induction l with
  | nil => rfl
  | cons a t iht => simp [List.filterMap_cons, iht]

/-! ## Claim theorems about the conversation loop -/

/-- C2: for every initial history, the loop terminates within the
configured round-trip bound (`fuel`, LangGraph's recursion limit) even
when the model returns at least one pending capability request on every
call, and hitting the cap yields the distinct `loopBoundExceeded`
outcome: the number of model calls never exceeds the bound and the
result is `loopBoundExceeded`, not an unbounded loop. -/
theorem loop_bound_exceeded_on_persistent_requests
    (model : List Msg → Except String (String × List ToolCall))
    (exec : ToolCall → ToolPayload) (fuel : Nat) (h : List Msg)
    (hM : ∀ inp, ∃ c tcs, model inp = Except.ok (c, tcs) ∧ tcs ≠ []) :
    (runLoop model exec fuel h).modelInputs.length ≤ fuel ∧
      (runLoop model exec fuel h).result = LoopResult.loopBoundExceeded := by
  induction fuel generalizing h with
  | zero => simp [runLoop]
  | succ n ih =>
      obtain ⟨c, tcs, hmod, hne⟩ := hM (systemPrompt :: h)
      have hemp : tcs.isEmpty = false := by
        cases tcs with
        | nil => exact absurd rfl hne
        | cons a l => rfl
      simp only [runLoop, hmod, hemp, Bool.false_eq_true, if_false]
      constructor
      · simpa using (ih _).1
      · exact (ih _).2

/-- Stub model client that always requests one capability invocation. -/
def pendingStubModel : List Msg → Except String (String × List ToolCall) :=
  fun _ => Except.ok ("", [⟨"call_1", "search_movies", "query=Inception"⟩])

/-- Stub model client that immediately returns a terminal reply. -/
def doneStubModel : List Msg → Except String (String × List ToolCall) :=
  fun _ => Except.ok ("Hello!", [])

/-- Stub capability executor. -/
def stubExec : ToolCall → ToolPayload :=
  fun _ => ToolPayload.ok "stub result"

theorem loop_bound_exceeded_on_persistent_requests_witness :
    (∀ inp, ∃ c tcs, pendingStubModel inp = Except.ok (c, tcs) ∧ tcs ≠ []) ∧
      (runLoop pendingStubModel stubExec 3 []).modelInputs.length ≤ 3 ∧
      (runLoop pendingStubModel stubExec 3 []).result = LoopResult.loopBoundExceeded :=
  ⟨fun _ => ⟨"", [⟨"call_1", "search_movies", "query=Inception"⟩], rfl, by decide⟩,
   loop_bound_exceeded_on_persistent_requests pendingStubModel stubExec 3 []
     (fun _ => ⟨"", [⟨"call_1", "search_movies", "query=Inception"⟩], rfl, by decide⟩)⟩

/-- C3: every run that reaches the `done` terminal state returns a
non-empty history whose last message is an assistant message carrying
zero pending capability requests. -/
theorem done_ends_with_assistant_no_requests
    (model : List Msg → Except String (String × List ToolCall))
    (exec : ToolCall → ToolPayload) (fuel : Nat) (h h' : List Msg)
    (hdone : (runLoop model exec fuel h).result = LoopResult.done h') :
    h' ≠ [] ∧ ∃ c, h'.getLast? = some (Msg.assistant c []) := by
  induction fuel generalizing h with
  | zero => simp [runLoop] at hdone
  | succ n ih =>
      cases hmod : model (systemPrompt :: h) with
      | error e => simp [runLoop, hmod] at hdone
      | ok r =>
          obtain ⟨c, tcs⟩ := r
          by_cases hemp : tcs.isEmpty
          · have htcs : tcs = [] := by
              cases tcs with
              | nil => rfl
              | cons a l => exact absurd hemp (by simp [List.isEmpty])
            subst htcs
            simp only [runLoop, hmod, hemp, if_true] at hdone
            have hh : h ++ [Msg.assistant c []] = h' := by
              simpa using hdone
            subst hh
            refine ⟨by simp, c, ?_⟩
            simp
          · simp only [runLoop, hmod, hemp, Bool.false_eq_true, if_false] at hdone
            exact ih _ hdone

theorem done_ends_with_assistant_no_requests_witness :
    (runLoop doneStubModel stubExec 1 [Msg.user "hi"]).result
        = LoopResult.done [Msg.user "hi", Msg.assistant "Hello!" []] ∧
      ([Msg.user "hi", Msg.assistant "Hello!" []] ≠ ([] : List Msg) ∧
        ∃ c, ([Msg.user "hi", Msg.assistant "Hello!" []]).getLast? = some (Msg.assistant c [])) :=
  ⟨by decide,
   done_ends_with_assistant_no_requests doneStubModel stubExec 1 [Msg.user "hi"] _ (by decide)⟩

/-- C4: for every assistant message carrying at least one pending
capability request whose invocation identifiers are distinct, exactly as
many `ToolMessage`s are produced, keyed to those identifiers in request
order and pairwise distinct, and they are appended to the history before
the next model call of the loop. -/
theorem tool_results_match_requests (exec : ToolCall → ToolPayload) (tcs : List ToolCall)
    (hne : tcs ≠ []) (hnd : (tcs.map ToolCall.id).Nodup) :
    (execToolCalls exec tcs).length = tcs.length ∧
      (execToolCalls exec tcs).map Msg.resultId = tcs.map (fun tc => some tc.id) ∧
      ((execToolCalls exec tcs).filterMap Msg.resultId).Nodup ∧
      (∀ (model : List Msg → Except String (String × List ToolCall)) (fuel : Nat)
        (h : List Msg) (c : String),
        model (systemPrompt :: h) = Except.ok (c, tcs) →
        runLoop model exec (fuel + 1) h =
          ⟨(runLoop model exec fuel (h ++ [Msg.assistant c tcs] ++ execToolCalls exec tcs)).result,
           (systemPrompt :: h) ::
             (runLoop model exec fuel
               (h ++ [Msg.assistant c tcs] ++ execToolCalls exec tcs)).modelInputs⟩) := by
  have hemp : tcs.isEmpty = false := by
    cases tcs with
    | nil => exact absurd rfl hne
    | cons a l => rfl
  refine ⟨execToolCalls_length exec tcs, ?_, ?_, ?_⟩
  · simp [execToolCalls, List.map_map, Msg.resultId, Function.comp_def]
  · have hfm : (execToolCalls exec tcs).filterMap Msg.resultId = tcs.map ToolCall.id := by
      simp only [execToolCalls, List.filterMap_map, Msg.resultId, Function.comp_def]
      exact filterMap_some_id tcs
    rw [hfm]
    exact hnd
  · intro model fuel h c hmod
    exact runLoop_step model exec fuel h c tcs hmod hemp

theorem tool_results_match_requests_witness :
    ([⟨"call_1", "search_movies", "query=Inception"⟩] : List ToolCall) ≠ [] ∧
      (([⟨"call_1", "search_movies", "query=Inception"⟩] : List ToolCall).map ToolCall.id).Nodup ∧
      (execToolCalls stubExec [⟨"call_1", "search_movies", "query=Inception"⟩]).length
          = ([⟨"call_1", "search_movies", "query=Inception"⟩] : List ToolCall).length :=
  ⟨by decide, by decide,
   (tool_results_match_requests stubExec [⟨"call_1", "search_movies", "query=Inception"⟩]
     (by decide) (by decide)).1⟩

/-- C5: on every model call the loop makes, the first message of the
supplied sequence is the fixed system prompt, and the system prompt is
never stored in the history: a run starting from a history free of
system messages that reaches `done` returns a history free of system
messages. -/
theorem system_prompt_prepended_not_persisted
    (model : List Msg → Except String (String × List ToolCall))
    (exec : ToolCall → ToolPayload) (fuel : Nat) (h : List Msg) :
    (∀ inp ∈ (runLoop model exec fuel h).modelInputs, inp.head? = some systemPrompt) ∧
      (∀ h', (runLoop model exec fuel h).result = LoopResult.done h' →
        (∀ m ∈ h, m.isSystem = false) → ∀ m ∈ h', m.isSystem = false) := by
  induction fuel generalizing h with
  | zero =>
      constructor
      · intro inp hinp
        simp [runLoop] at hinp
      · intro h' hd
        simp [runLoop] at hd
  | succ n ih =>
      cases hmod : model (systemPrompt :: h) with
      | error e =>
          constructor
          · intro inp hinp
            simp only [runLoop, hmod, List.mem_singleton] at hinp
            subst hinp
            rfl
          · intro h' hd
            simp [runLoop, hmod] at hd
      | ok r =>
          obtain ⟨c, tcs⟩ := r
          by_cases hemp : tcs.isEmpty
          · constructor
            · intro inp hinp
              simp only [runLoop, hmod, hemp, if_true, List.mem_singleton] at hinp
              subst hinp
              rfl
            · intro h' hd hsys m hm
              simp only [runLoop, hmod, hemp, if_true, LoopResult.done.injEq] at hd
              subst hd
              rcases List.mem_append.mp hm with hm | hm
              · exact hsys m hm
              · simp only [List.mem_singleton] at hm
                subst hm
                rfl
          · have hemp' : tcs.isEmpty = false := by
              cases hb : tcs.isEmpty with
              | false => rfl
              | true => exact absurd hb hemp
            constructor
            · intro inp hinp
              simp only [runLoop, hemp', Bool.false_eq_true, if_false, hmod,
                List.mem_cons] at hinp
              rcases hinp with hinp | hinp
              · subst hinp
                rfl
              · exact (ih _).1 inp hinp
            · intro h' hd hsys
              simp only [runLoop, hemp', Bool.false_eq_true, if_false, hmod] at hd
              refine (ih _).2 h' hd ?_
              intro m hm
              rcases List.mem_append.mp hm with hm | hm
              · rcases List.mem_append.mp hm with hm | hm
                · exact hsys m hm
                · simp only [List.mem_singleton] at hm
                  subst hm
                  rfl
              · exact execToolCalls_not_system exec tcs m hm

theorem system_prompt_prepended_not_persisted_witness :
    (∀ inp ∈ (runLoop doneStubModel stubExec 1 [Msg.user "hi"]).modelInputs,
        inp.head? = some systemPrompt) ∧
      (∀ h', (runLoop doneStubModel stubExec 1 [Msg.user "hi"]).result = LoopResult.done h' →
        (∀ m ∈ [Msg.user "hi"], m.isSystem = false) → ∀ m ∈ h', m.isSystem = false) :=
  system_prompt_prepended_not_persisted doneStubModel stubExec 1 [Msg.user "hi"]

/-- C6: a capability invocation that raises never propagates out of the
loop: `ToolNode`'s handler records it as a `ToolMessage` with an error
payload (shown both for a single invocation and within the batch of an
assistant message's requests), a failing source makes `search_movies`
itself surface a raised error to the handler, and after a request-bearing
assistant message the loop still reaches the next model call. -/
theorem capability_failure_contained (invoke : ToolCall → Except String String) :
    (∀ tc e, invoke tc = Except.error e →
      toolNodeExec invoke tc
          = ToolPayload.error ("Error: " ++ e ++ "\n Please fix your mistakes.")) ∧
      (∀ (tcs : List ToolCall) (tc : ToolCall), tc ∈ tcs → ∀ e, invoke tc = Except.error e →
        Msg.toolResult tc.id (ToolPayload.error ("Error: " ++ e ++ "\n Please fix your mistakes."))
            ∈ execToolCalls (toolNodeExec invoke) tcs) ∧
      (∀ (α : Type) (source : ApiRequest → Except String (ListResponse α))
        (apiKey q : String) (p : Int) (e : String),
        source (searchRequest apiKey q p) = Except.error e →
        search_movies source apiKey q p = Except.error e) ∧
      (∀ (model : List Msg → Except String (String × List ToolCall)) (fuel : Nat)
        (h : List Msg) (c : String) (tcs : List ToolCall),
        model (systemPrompt :: h) = Except.ok (c, tcs) → tcs ≠ [] →
        2 ≤ (runLoop model (toolNodeExec invoke) (fuel + 2) h).modelInputs.length) := by
  refine ⟨?_, ?_, ?_, ?_⟩
  · intro tc e he
    simp [toolNodeExec, he]
  · intro tcs tc htc e he
    have : Msg.toolResult tc.id (toolNodeExec invoke tc) ∈ execToolCalls (toolNodeExec invoke) tcs := by
      simp only [execToolCalls, List.mem_map]
      exact ⟨tc, htc, rfl⟩
    simpa [toolNodeExec, he] using this
  · intro α source apiKey q p e he
    simp only [search_movies, he]
    rfl
  · intro model fuel h c tcs hmod hne
    have hemp : tcs.isEmpty = false := by
      cases tcs with
      | nil => exact absurd rfl hne
      | cons a l => rfl
    rw [runLoop_step model (toolNodeExec invoke) (fuel + 1) h c tcs hmod hemp]
    simp only [List.length_cons]
    have := runLoop_inputs_nonempty model (toolNodeExec invoke) fuel
      (h ++ [Msg.assistant c tcs] ++ execToolCalls (toolNodeExec invoke) tcs)
    omega

/-- Capability invoker stub that always raises. -/
def failingInvoke : ToolCall → Except String String :=
  fun _ => Except.error "ConnectionError"

theorem capability_failure_contained_witness :
    failingInvoke ⟨"call_1", "search_movies", "query=Inception"⟩
        = Except.error "ConnectionError" ∧
      toolNodeExec failingInvoke ⟨"call_1", "search_movies", "query=Inception"⟩
        = ToolPayload.error ("Error: " ++ "ConnectionError" ++ "\n Please fix your mistakes.") :=
  ⟨rfl,
   (capability_failure_contained failingInvoke).1
     ⟨"call_1", "search_movies", "query=Inception"⟩ "ConnectionError" rfl⟩

/-! ## Claim theorems about the /chat endpoint (src/main.py) -/

/-- Agent stub whose `graph.invoke` always raises. -/
def failingAgent : List Msg → Except String (List Msg) :=
  fun _ => Except.error "boom"

/-- C1 counterexample: a model-client failure does mutate the
caller-visible session history.  Starting from an empty session, a turn
whose agent call raises leaves the session changed: the user message of
the failed turn is committed to the session transcript and — through the
shallow `session['state'].copy()` — to the stored agent state, even
though the failure is surfaced as the distinct processing-failed error. -/
theorem chat_failure_mutates_history_cex :
    (chat_with_agent failingAgent ⟨[], []⟩ "hi").1 ≠ (⟨[], []⟩ : ApiSession) ∧
      (chat_with_agent failingAgent ⟨[], []⟩ "hi").1.messages = [("user", "hi")] ∧
      (chat_with_agent failingAgent ⟨[], []⟩ "hi").1.state = [Msg.user "hi"] ∧
      (chat_with_agent failingAgent ⟨[], []⟩ "hi").2
          = Except.error "Agent processing failed: boom" := by
  refine ⟨by decide, rfl, rfl, rfl⟩

/-- C1 amended: when the agent call raises, the turn commits exactly the
user message — appended to the session transcript and, via the shallow
state copy, to the stored agent state — and nothing else (no assistant
message, no capability result), and the failure is surfaced to the
caller as the distinct `Agent processing failed` condition. -/
theorem chat_failure_commits_only_user_message
    (agent : List Msg → Except String (List Msg)) (sess : ApiSession) (text e : String)
    (hfail : agent (sess.state ++ [Msg.user text]) = Except.error e) :
    chat_with_agent agent sess text =
      (⟨sess.messages ++ [("user", text)], sess.state ++ [Msg.user text]⟩,
       Except.error ("Agent processing failed: " ++ e)) := by
  simp [chat_with_agent, hfail]

theorem chat_failure_commits_only_user_message_witness :
    failingAgent (([] : List Msg) ++ [Msg.user "hi"]) = Except.error "boom" ∧
      chat_with_agent failingAgent ⟨[], []⟩ "hi" =
        (⟨[] ++ [("user", "hi")], [] ++ [Msg.user "hi"]⟩,
         Except.error ("Agent processing failed: " ++ "boom")) :=
  ⟨rfl, chat_failure_commits_only_user_message failingAgent ⟨[], []⟩ "hi" "boom" rfl⟩

/-! ## Claim theorems about the TMDB capabilities (src/tools.py) -/

/-- C7: every capability is a pure function of its arguments and of the
external source's response to the one request it builds: two sources
that agree on that request (in particular, one unchanged source queried
twice) yield structurally identical results for identical arguments. -/
theorem capabilities_pure_in_source (α : Type)
    (sS sS' sD sD' sL sL' sT sT' sR sR' : ApiRequest → Except String (ListResponse α))
    (sDet sDet' : ApiRequest → Except String (DetailsResponse α))
    (sW sW' : ApiRequest → Except String WPResponse)
    (apiKey q : String) (p : Int) (g : Option Int) (sb lt tw : String)
    (mid : Int) (ac : Bool) (region : String)
    (hS : sS (searchRequest apiKey q p) = sS' (searchRequest apiKey q p))
    (hD : sD (discoverRequest apiKey g sb p) = sD' (discoverRequest apiKey g sb p))
    (hL : sL (movieListsRequest apiKey lt p) = sL' (movieListsRequest apiKey lt p))
    (hT : sT (trendingRequest apiKey tw p) = sT' (trendingRequest apiKey tw p))
    (hR : sR (recommendationsRequest apiKey mid p) = sR' (recommendationsRequest apiKey mid p))
    (hDet : sDet (detailsRequest apiKey mid ac) = sDet' (detailsRequest apiKey mid ac))
    (hW : sW (wpRequest apiKey mid) = sW' (wpRequest apiKey mid)) :
    search_movies sS apiKey q p = search_movies sS' apiKey q p ∧
      discover_movies sD apiKey g sb p = discover_movies sD' apiKey g sb p ∧
      get_movie_lists sL apiKey lt p = get_movie_lists sL' apiKey lt p ∧
      get_trending_movies sT apiKey tw p = get_trending_movies sT' apiKey tw p ∧
      get_movie_recommendations sR apiKey mid p = get_movie_recommendations sR' apiKey mid p ∧
      get_movie_details sDet apiKey mid ac = get_movie_details sDet' apiKey mid ac ∧
      get_watch_providers sW apiKey mid region = get_watch_providers sW' apiKey mid region := by
  refine ⟨?_, ?_, ?_, ?_, ?_, ?_, ?_⟩
  · simp [search_movies, hS]
  · simp [discover_movies, hD]
  · simp [get_movie_lists, hL]
  · simp [get_trending_movies, hT]
  · simp [get_movie_recommendations, hR]
  · simp [get_movie_details, hDet]
  · simp [get_watch_providers, hW]

/-- Constant list-endpoint source used as an unchanged external data
source. -/
def emptyListSource : ApiRequest → Except String (ListResponse Unit) :=
  fun _ => Except.ok ⟨none, none⟩

/-- Constant details-endpoint source. -/
def emptyDetailsSource : ApiRequest → Except String (DetailsResponse Unit) :=
  fun _ => Except.ok ⟨none, none, none, none, none, none, none, none, none, none, none⟩

/-- Constant watch-providers source with no `results` key. -/
def emptyWPSource : ApiRequest → Except String WPResponse :=
  fun _ => Except.ok ⟨none⟩

theorem capabilities_pure_in_source_witness :
    emptyListSource (searchRequest "key" "Inception" 1)
        = emptyListSource (searchRequest "key" "Inception" 1) ∧
      search_movies emptyListSource "key" "Inception" 1
        = search_movies emptyListSource "key" "Inception" 1 ∧
      get_watch_providers emptyWPSource "key" 27205 "US"
        = get_watch_providers emptyWPSource "key" 27205 "US" :=
  ⟨rfl,
   (capabilities_pure_in_source Unit emptyListSource emptyListSource emptyListSource
      emptyListSource emptyListSource emptyListSource emptyListSource emptyListSource
      emptyListSource emptyListSource emptyDetailsSource emptyDetailsSource
      emptyWPSource emptyWPSource "key" "Inception" 1 none "popularity.desc" "popular" "day"
      27205 true "US" rfl rfl rfl rfl rfl rfl rfl).1,
   (capabilities_pure_in_source Unit emptyListSource emptyListSource emptyListSource
      emptyListSource emptyListSource emptyListSource emptyListSource emptyListSource
      emptyListSource emptyListSource emptyDetailsSource emptyDetailsSource
      emptyWPSource emptyWPSource "key" "Inception" 1 none "popularity.desc" "popular" "day"
      27205 true "US" rfl rfl rfl rfl rfl rfl rfl).2.2.2.2.2.2⟩

/-! ## Claim theorems about the model-client configuration -/

/-- C8 counterexample: the model client is not configured with
deterministic decoding — its temperature is 0.1, which is nonzero, so
sampling randomness is reduced but not eliminated and identical calls
are not guaranteed identical outputs. -/
theorem llm_temperature_not_deterministic_cex :
    (llm none none).temperature = 1 / 10 ∧ (llm none none).temperature ≠ 0 := by
  constructor
  · rfl
  · norm_num [llm, chat_model]

/-- C8 amended: the model client is configured with low-randomness (but
not deterministic) decoding parameters: temperature 0.1 (positive, so
reproducibility of tool selection is approximate, not guaranteed) and
max_tokens 2048, for every environment-supplied key and model name. -/
theorem llm_low_randomness_config (apiKey envModel : Option String) :
    (llm apiKey envModel).temperature = 1 / 10 ∧
      0 < (llm apiKey envModel).temperature ∧
      (llm apiKey envModel).max_tokens = 2048 := by
  refine ⟨rfl, by norm_num [llm, chat_model], rfl⟩

theorem llm_low_randomness_config_witness :
    (llm none none).temperature = 1 / 10 ∧
      0 < (llm none none).temperature ∧ (llm none none).max_tokens = 2048 :=
  llm_low_randomness_config none none

/-- The shape a list-returning capability's output has on a body with a
`results` key and total `t`: a filtered dictionary with at most 5
movies, `total_results = min t 5`, and, pairwise with the first 5 raw
movies in order, the essential fields copied and the overview truncated
to `limit` characters with `"..."` appended exactly when it exceeds the
limit. -/
def filteredOK {α : Type} (limit : Nat) (t : Int) (ms : List (RawMovie α))
    (out : Except String (ListOutput α)) : Prop :=
  ∃ fs, out = Except.ok (ListOutput.filtered fs (min t 5)) ∧ fs.length ≤ 5 ∧
    List.Forall₂ (fun (mIn : RawMovie α) (mOut : FilteredMovie α) =>
      mOut.id = mIn.id ∧ mOut.title = mIn.title ∧
        mOut.release_date = mIn.release_date ∧ mOut.vote_average = mIn.vote_average ∧
        mOut.overview =
          (if (mIn.overview.getD "").length > limit then
            ((mIn.overview.getD "").take limit) ++ "..."
          else
            mIn.overview.getD "")) (ms.take 5) fs

theorem forall₂_self_map {α β : Type} (R : α → β → Prop) (f : α → β) (l : List α)
    (hf : ∀ x ∈ l, R x (f x)) : List.Forall₂ R l (l.map f) := by
  induction l with
  | nil => exact List.Forall₂.nil
  | cons a tl ih =>
      exact List.Forall₂.cons (hf a (List.mem_cons_self a tl))
        (ih (fun x hx => hf x (List.mem_cons_of_mem a hx)))

theorem filterListResponse_filteredOK {α : Type} (limit : Nat) (resp : ListResponse α)
    (ms : List (RawMovie α)) (t : Int) (hres : resp.results = some ms)
    (htot : resp.total_results = some t) :
    filteredOK limit t ms (Except.ok (filterListResponse limit resp)) := by
  refine ⟨(ms.take 5).map (filterMovie limit), ?_, ?_, ?_⟩
  · simp [filterListResponse, hres, htot]
  · simp only [List.length_map, List.length_take]
    exact min_le_left _ _
  · exact forall₂_self_map _ _ _ (fun m hm => ⟨rfl, rfl, rfl, rfl, rfl⟩)

/-- C9: on every provider body with a `results` key (and total `t`),
each list-returning capability returns at most 5 movies, reports
`total_results = min t 5`, and truncates each overview to its per-tool
character limit (200 for `search_movies`, 150 for the others) with
`"..."` appended exactly when the overview exceeds the limit. -/
theorem list_tools_cap_and_truncate (α : Type)
    (sS sD sL sT sR : ApiRequest → Except String (ListResponse α))
    (resp : ListResponse α) (ms : List (RawMovie α)) (t : Int)
    (hres : resp.results = some ms) (htot : resp.total_results = some t)
    (apiKey q : String) (p : Int) (g : Option Int) (sb lt tw : String) (mid : Int)
    (hS : sS (searchRequest apiKey q p) = Except.ok resp)
    (hD : sD (discoverRequest apiKey g sb p) = Except.ok resp)
    (hL : sL (movieListsRequest apiKey lt p) = Except.ok resp)
    (hT : sT (trendingRequest apiKey tw p) = Except.ok resp)
    (hR : sR (recommendationsRequest apiKey mid p) = Except.ok resp) :
    filteredOK 200 t ms (search_movies sS apiKey q p) ∧
      filteredOK 150 t ms (discover_movies sD apiKey g sb p) ∧
      filteredOK 150 t ms (get_movie_lists sL apiKey lt p) ∧
      filteredOK 150 t ms (get_trending_movies sT apiKey tw p) ∧
      filteredOK 150 t ms (get_movie_recommendations sR apiKey mid p) := by
  refine ⟨?_, ?_, ?_, ?_, ?_⟩
  · simpa [search_movies, hS, Except.map] using
      filterListResponse_filteredOK 200 resp ms t hres htot
  · simpa [discover_movies, hD, Except.map] using
      filterListResponse_filteredOK 150 resp ms t hres htot
  · simpa [get_movie_lists, hL, Except.map] using
      filterListResponse_filteredOK 150 resp ms t hres htot
  · simpa [get_trending_movies, hT, Except.map] using
      filterListResponse_filteredOK 150 resp ms t hres htot
  · simpa [get_movie_recommendations, hR, Except.map] using
      filterListResponse_filteredOK 150 resp ms t hres htot

/-- Constant list-endpoint source whose body has a `results` key with
one movie and `total_results` 7. -/
def oneMovieSource : ApiRequest → Except String (ListResponse Unit) :=
  fun _ => Except.ok ⟨some [⟨none, none, none, none, some "A short overview."⟩], some 7⟩

theorem list_tools_cap_and_truncate_witness :
    (⟨some [⟨none, none, none, none, some "A short overview."⟩], some 7⟩ :
        ListResponse Unit).results = some [⟨none, none, none, none, some "A short overview."⟩] ∧
      oneMovieSource (searchRequest "key" "Inception" 1)
        = Except.ok ⟨some [⟨none, none, none, none, some "A short overview."⟩], some 7⟩ ∧
      filteredOK 200 7 [⟨none, none, none, none, some "A short overview."⟩]
        (search_movies oneMovieSource "key" "Inception" 1) :=
  ⟨rfl, rfl,
   (list_tools_cap_and_truncate Unit oneMovieSource oneMovieSource oneMovieSource
      oneMovieSource oneMovieSource
      ⟨some [⟨none, none, none, none, some "A short overview."⟩], some 7⟩
      [⟨none, none, none, none, some "A short overview."⟩] 7 rfl rfl
      "key" "Inception" 1 none "popularity.desc" "popular" "day" 27205
      rfl rfl rfl rfl rfl).1⟩

/-- C10: for every movie id and region, a successful `get_watch_providers`
fetch returns a dictionary containing the keys `movie_id`, `region`,
`streaming`, `rent`, `buy` and `link` (echoing the inputs); when the
requested region is absent from the body's `results`, the provider lists
are empty and an explanatory `message` is present instead of a failure;
and the request sent carries only the `api_key` and `language`
parameters — the region is never a request parameter. -/
theorem watch_providers_shape (source : ApiRequest → Except String WPResponse)
    (apiKey : String) (m : Int) (r : String) (resp : WPResponse)
    (hsrc : source (wpRequest apiKey m) = Except.ok resp) :
    (∃ d, get_watch_providers source apiKey m r = Except.ok d ∧
        d.lookup "movie_id" = some (WPVal.vint m) ∧
        d.lookup "region" = some (WPVal.vstr r) ∧
        (d.lookup "streaming").isSome ∧ (d.lookup "rent").isSome ∧
        (d.lookup "buy").isSome ∧ (d.lookup "link").isSome) ∧
      (resp.results.bind (fun rs => rs.lookup r) = none →
        ∃ d, get_watch_providers source apiKey m r = Except.ok d ∧
          d.lookup "streaming" = some (WPVal.vlist []) ∧
          d.lookup "rent" = some (WPVal.vlist []) ∧
          d.lookup "buy" = some (WPVal.vlist []) ∧
          d.lookup "message"
              = some (WPVal.vstr ("No streaming information available for this movie in " ++ r)) ∧
          d.lookup "link" = some (WPVal.vstr "")) ∧
      (wpRequest apiKey m).params.map Prod.fst = ["api_key", "language"] := by
  have hmsg : ∀ hb : resp.results.bind (fun rs => rs.lookup r) = none,
      get_watch_providers source apiKey m r = Except.ok
        [("movie_id", WPVal.vint m), ("region", WPVal.vstr r),
         ("streaming", WPVal.vlist []), ("rent", WPVal.vlist []), ("buy", WPVal.vlist []),
         ("message",
          WPVal.vstr ("No streaming information available for this movie in " ++ r)),
         ("link", WPVal.vstr "")] := by
    intro hb
    simp [get_watch_providers, hsrc, Except.map, hb]
  refine ⟨?_, ?_, rfl⟩
  · cases hb : resp.results.bind (fun rs => rs.lookup r) with
    | some pd =>
        have hout : get_watch_providers source apiKey m r = Except.ok
            [("movie_id", WPVal.vint m), ("region", WPVal.vstr r),
             ("streaming",
              WPVal.vlist ((pd.flatrate.getD []).map (fun pr => pr.provider_name))),
             ("rent", WPVal.vlist ((pd.rent.getD []).map (fun pr => pr.provider_name))),
             ("buy", WPVal.vlist ((pd.buy.getD []).map (fun pr => pr.provider_name))),
             ("link", WPVal.vstr (pd.link.getD ""))] := by
          simp [get_watch_providers, hsrc, Except.map, hb]
        exact ⟨_, hout, by simp [List.lookup], by simp [List.lookup], by simp [List.lookup],
          by simp [List.lookup], by simp [List.lookup], by simp [List.lookup]⟩
    | none =>
        exact ⟨_, hmsg hb, by simp [List.lookup], by simp [List.lookup],
          by simp [List.lookup], by simp [List.lookup], by simp [List.lookup],
          by simp [List.lookup]⟩
  · intro habs
    exact ⟨_, hmsg habs, by simp [List.lookup], by simp [List.lookup],
      by simp [List.lookup], by simp [List.lookup], by simp [List.lookup]⟩

theorem watch_providers_shape_witness :
    emptyWPSource (wpRequest "key" 27205) = Except.ok ⟨none⟩ ∧
      (∃ d, get_watch_providers emptyWPSource "key" 27205 "US" = Except.ok d ∧
        d.lookup "movie_id" = some (WPVal.vint 27205) ∧
        d.lookup "region" = some (WPVal.vstr "US") ∧
        (d.lookup "streaming").isSome ∧ (d.lookup "rent").isSome ∧
        (d.lookup "buy").isSome ∧ (d.lookup "link").isSome) :=
  ⟨rfl,
   (watch_providers_shape emptyWPSource "key" 27205 "US" ⟨none⟩ rfl).1⟩

end MovieMania
